import Mathlib

/-!
Verification of the virtual-pet state/behavior simulation core.

This file shallowly embeds the state-management core of the repository
(`dog_state.py`, the behavior queue of `dog_behaviors.py`, and the
orchestration loops of `dog_agent_gradio.py`) and proves the spec's
testable properties about it.

Modelling conventions:
- Python floats are modelled as `ℚ` (all arithmetic in the source is
  exact on the inputs of interest; no float-rounding behavior is claimed).
- Wall-clock time (`time.time()`) is passed explicitly as a `now : ℚ`
  parameter; `time_scale` is passed as `scale : ℚ`.
- The four always-together behavior fields (`current_behavior`,
  `behavior_start_time`, `behavior_duration`, `behavior_description`) are
  bundled into `Option ActiveBehavior`: the source sets all four to `None`
  together and only reads the latter three under a truthiness check of
  `current_behavior`.  (Python truthiness of the behavior string is
  modelled as `Option.isSome`; the empty-string kind never arises.)
- The dynamic attributes bolted onto the state record at runtime
  (`_eating_initial_hunger`, `_drinking_initial_thirst`,
  `_behavior_just_completed`) are modelled as `Option ℚ` / `Bool` fields;
  `getattr` defaults are modelled with `Option.getD`.
- SQLite persistence is modelled by an `Option Persisted` snapshot;
  `save_state` stores `to_dict` of the current state.  As in the source
  (`dataclasses.asdict`), `to_dict` does NOT include the dynamic
  attributes, which is why a reloaded state can lack the initial-value
  snapshots.
-/

/-- The `time_scale` conversion: real elapsed seconds to virtual minutes,
`(elapsed_seconds * time_scale) / 60.0` (dog_state.py lines 105, 133, 242). -/
def virtualMinutes (scale fromTime toTime : ℚ) : ℚ :=
  (toTime - fromTime) * scale / 60

/-- The bundle of the four behavior fields of `DogState`
(dog_state.py lines 24-27), present iff a long-term behavior is active. -/
structure ActiveBehavior where
  kind : String
  start_time : ℚ
  duration : ℚ
  description : String
deriving DecidableEq

/-- The dog state record (`DogState` dataclass of dog_state.py lines 13-31),
together with the runtime-added dynamic attributes. -/
structure DogState where
  hunger : ℚ
  thirst : ℚ
  fatigue : ℚ
  boredom : ℚ
  happiness : ℚ
  last_update_time : ℚ
  current : Option ActiveBehavior
  eating_initial_hunger : Option ℚ
  drinking_initial_thirst : Option ℚ
  just_completed : Bool
deriving DecidableEq

/-- The dataclass fields that `to_dict` (`dataclasses.asdict`) serializes;
the dynamic attributes are not part of the dataclass and are dropped. -/
structure Persisted where
  hunger : ℚ
  thirst : ℚ
  fatigue : ℚ
  boredom : ℚ
  happiness : ℚ
  last_update_time : ℚ
  current : Option ActiveBehavior
deriving DecidableEq

/-- `DogState.to_dict` (dog_state.py lines 33-35). -/
def to_dict (s : DogState) : Persisted :=
  ⟨s.hunger, s.thirst, s.fatigue, s.boredom, s.happiness, s.last_update_time, s.current⟩

/-- `DogStateManager.save_state` (dog_state.py lines 267-277): writes the
serialized dataclass snapshot into the singleton row. -/
def save_state (s : DogState) : Option Persisted :=
  some (to_dict s)

/-- `max(0, min(100, x))`, the per-attribute clamp of `clamp_values`. -/
def clamp01 (x : ℚ) : ℚ := max 0 (min 100 x)

/-- `DogState.clamp_values` (dog_state.py lines 42-48). -/
def DogState.clamp_values (s : DogState) : DogState :=
  { s with
    hunger := clamp01 s.hunger
    thirst := clamp01 s.thirst
    fatigue := clamp01 s.fatigue
    boredom := clamp01 s.boredom
    happiness := clamp01 s.happiness }

/-- The delta record for `modify_state`; the behavior tools only ever pass
the five attribute names, so the `**kwargs` dict is modelled as one signed
delta per attribute (0 when the keyword is absent). -/
structure StateDelta where
  hunger : ℚ
  thirst : ℚ
  fatigue : ℚ
  boredom : ℚ
  happiness : ℚ
deriving DecidableEq

/-- `DogStateManager.modify_state` (dog_state.py lines 279-287): adds the
deltas, clamps, persists. -/
def modify_state (d : StateDelta) (s : DogState) (_db : Option Persisted) :
    DogState × Option Persisted :=
  let s1 := DogState.clamp_values
    { s with
      hunger := s.hunger + d.hunger
      thirst := s.thirst + d.thirst
      fatigue := s.fatigue + d.fatigue
      boredom := s.boredom + d.boredom
      happiness := s.happiness + d.happiness }
  (s1, save_state s1)

/-- `DogStateManager.is_busy` (dog_state.py lines 235-244). -/
def is_busy (scale now : ℚ) (s : DogState) : Bool :=
  match s.current with
  | none => false
  | some ab => decide (virtualMinutes scale ab.start_time now < ab.duration)

/-- `DogStateManager._complete_behavior` (dog_state.py lines 158-184),
without the trailing `save_state` (see `complete_behavior_save`): applies
the final effect for the behavior kind, clears the behavior bundle, sets
the just-completed flag. -/
def complete_behavior (s : DogState) : DogState :=
  let s1 :=
    if s.current.map ActiveBehavior.kind = some "sleeping" then
      { s with fatigue := 0, happiness := s.happiness + 10 }
    else if s.current.map ActiveBehavior.kind = some "eating" then
      { s with hunger := 0, happiness := s.happiness + 15 }
    else if s.current.map ActiveBehavior.kind = some "drinking" then
      { s with thirst := 0, happiness := s.happiness + 10 }
    else s
  { s1 with current := none, just_completed := true }

/-- `_complete_behavior` including its final `save_state` call
(dog_state.py line 186). -/
def complete_behavior_save (s : DogState) (_db : Option Persisted) :
    DogState × Option Persisted :=
  let s1 := complete_behavior s
  (s1, save_state s1)

/-- `DogStateManager._update_behavior_progress` (dog_state.py lines 125-156).
The Python function receives an `elapsed_minutes` argument but never uses
it: it recomputes the behavior-elapsed time from the wall clock and the
behavior's own start timestamp. -/
def update_behavior_progress (scale now : ℚ) (s : DogState)
    (db : Option Persisted) : DogState × Option Persisted :=
  match s.current with
  | none => (s, db)
  | some ab =>
    let behavior_elapsed_minutes := virtualMinutes scale ab.start_time now
    if ab.duration ≤ behavior_elapsed_minutes then
      complete_behavior_save s db
    else
      let progress := behavior_elapsed_minutes / ab.duration
      if ab.kind = "sleeping" then
        ({ s with
            fatigue := max 0 (80 * (1 - progress))
            boredom := max 0 (50 * (1 - progress * 0.5)) }, db)
      else if ab.kind = "eating" then
        ({ s with
            hunger := max 0 ((s.eating_initial_hunger.getD 80) * (1 - progress)) }, db)
      else if ab.kind = "drinking" then
        ({ s with
            thirst := max 0 ((s.drinking_initial_thirst.getD 80) * (1 - progress)) }, db)
      else (s, db)

/-- The tail of `update_state_by_time` after the behavior-progress update
(dog_state.py lines 111-123): time-based increments unless sleeping, the
unmet-needs happiness penalty, the `last_update_time` advance, the clamp. -/
def decay_after_progress (elapsed_minutes now : ℚ) (s1 : DogState) : DogState :=
  let s2 :=
    if s1.current.map ActiveBehavior.kind ≠ some "sleeping" then
      { s1 with
        hunger := s1.hunger + elapsed_minutes * 2
        thirst := s1.thirst + elapsed_minutes * 1.5
        fatigue := s1.fatigue + elapsed_minutes * 1
        boredom := s1.boredom + elapsed_minutes * 1.5 }
    else s1
  let s3 :=
    if 70 < s2.hunger ∨ 70 < s2.thirst then
      { s2 with happiness := s2.happiness - elapsed_minutes * 0.5 }
    else s2
  DogState.clamp_values { s3 with last_update_time := now }

/-- `DogStateManager.update_state_by_time` (dog_state.py lines 100-123). -/
def update_state_by_time (scale now : ℚ) (s : DogState)
    (db : Option Persisted) : DogState × Option Persisted :=
  let elapsed_minutes := virtualMinutes scale s.last_update_time now
  let p := if s.current.isSome then update_behavior_progress scale now s db else (s, db)
  (decay_after_progress elapsed_minutes now p.1, p.2)

/-- `DogStateManager.check_and_clear_completion_flag`
(dog_state.py lines 188-193): a single consuming read of the flag. -/
def check_and_clear_completion_flag (s : DogState) : Bool × DogState :=
  if s.just_completed then (true, { s with just_completed := false })
  else (false, s)

/-- `DogStateManager.start_behavior` (dog_state.py lines 195-216).  The
success message's numeric duration formatting is elided; the busy message
is the exact f-string with the existing behavior's description. -/
def start_behavior (scale now : ℚ) (behavior_type : String)
    (duration_minutes : ℚ) (description : String) (s : DogState)
    (db : Option Persisted) : (Bool × String) × DogState × Option Persisted :=
  if is_busy scale now s then
    ((false, "狗狗正在" ++ (s.current.map ActiveBehavior.description).getD "None"
        ++ "，不能开始新行为"), s, db)
  else
    let s1 := { s with current := some ⟨behavior_type, now, duration_minutes, description⟩ }
    let s2 :=
      if behavior_type = "eating" then
        { s1 with eating_initial_hunger := some s1.hunger }
      else if behavior_type = "drinking" then
        { s1 with drinking_initial_thirst := some s1.thirst }
      else s1
    ((true, "开始" ++ description ++ "..."), s2, save_state s2)

/-- `DogStateManager.interrupt_behavior` (dog_state.py lines 218-233). -/
def interrupt_behavior (reason : String) (s : DogState)
    (db : Option Persisted) : (Bool × String) × DogState × Option Persisted :=
  match s.current with
  | none => ((false, "狗狗没有在做需要打断的事情"), s, db)
  | some _ =>
    let s1 := { s with current := none }
    ((true, reason ++ "，停止了之前的行为"), s1, save_state s1)

/-- The attribute-range invariant: all five attributes in [0, 100]. -/
def inRange (s : DogState) : Prop :=
  (0 ≤ s.hunger ∧ s.hunger ≤ 100) ∧ (0 ≤ s.thirst ∧ s.thirst ≤ 100) ∧
  (0 ≤ s.fatigue ∧ s.fatigue ≤ 100) ∧ (0 ≤ s.boredom ∧ s.boredom ≤ 100) ∧
  (0 ≤ s.happiness ∧ s.happiness ≤ 100)

instance (s : DogState) : Decidable (inRange s) := by
  unfold inRange; infer_instance

/-- One external mutation of the shared state: an instant-behavior delta
(`modify_state`) or a timed update (`update_state_by_time`, which includes
behavior progress and completion). -/
inductive StateOp
  | modify (d : StateDelta)
  | updateTime (scale now : ℚ)

/-- Apply one mutation to the (state, persisted snapshot) pair. -/
def applyOp (op : StateOp) (p : DogState × Option Persisted) :
    DogState × Option Persisted :=
  match op with
  | .modify d => modify_state d p.1 p.2
  | .updateTime scale now => update_state_by_time scale now p.1 p.2

/-- Apply a sequence of mutations in order. -/
def applyOps (ops : List StateOp) (p : DogState × Option Persisted) :
    DogState × Option Persisted :=
  ops.foldl (fun q op => applyOp op q) p

/-- `BehaviorTask` (dog_agent_gradio.py lines 34-41).  The `action`
thunk is modelled by the string it returns when executed (`result`):
for a long-term task the action calls `start_behavior` and returns its
message, which begins with the busy text exactly when the start was
rejected. -/
structure BehaviorTask where
  behavior_type : String
  description : String
  estimated_duration : ℚ
  behavior_name : Option String
  result : String
deriving DecidableEq

/-- The control position of the queue-executor coroutine
(`behavior_queue_executor`, dog_agent_gradio.py lines 388-441): either at
the top of the loop ready to dequeue, or inside the inner completion-wait
loop of a long-term task (line 417). -/
inductive ExecPhase
  | idle
  | waiting (t : BehaviorTask)
deriving DecidableEq

/-- The executor's observable state: the pending FIFO queue, the log of
executed task descriptions in execution order, and the control phase. -/
structure ExecState where
  queue : List BehaviorTask
  executed : List String
  phase : ExecPhase
deriving DecidableEq

/-- A producer enqueue (`behavior_queue.put(task)`, dog_behaviors.py
lines 101 and 187): appends at the tail, executes nothing. -/
def enqueue (t : BehaviorTask) (es : ExecState) : ExecState :=
  { es with queue := es.queue ++ [t] }

/-- Python `str.startswith`: the check `result.startswith("狗狗正在")` on
the action's returned message (dog_agent_gradio.py line 414), modelled on
the character list: the first `len(pre)` characters equal `pre`. -/
def startsWithBusyMsg (r : String) : Bool :=
  decide (r.toList.take "狗狗正在".toList.length = "狗狗正在".toList)

/-- One iteration of the executor loop body (dog_agent_gradio.py lines
392-441), given the value `busy` that `state_manager.is_busy()` reports at
this instant.  At `idle` with a nonempty queue: dequeue the head, run its
action (recorded in `executed`), and enter the completion wait iff the
task is long-term and its action's result does not start with the busy
message (lines 412-414).  In the wait, re-poll `is_busy` and exit the wait
only when it is false (line 417).  At `idle` with an empty queue: sleep. -/
def execStep (busy : Bool) (es : ExecState) : ExecState :=
  match es.phase with
  | .waiting _ => if busy then es else { es with phase := .idle }
  | .idle =>
    match es.queue with
    | [] => es
    | t :: rest =>
      if t.behavior_type = "long_term" ∧ startsWithBusyMsg t.result = false then
        { queue := rest, executed := es.executed ++ [t.description], phase := .waiting t }
      else
        { queue := rest, executed := es.executed ++ [t.description], phase := .idle }

/-- What one orchestrator tick did, for stating the trigger conditions. -/
inductive TickAction
  | skippedBusy
  | triggeredByCompletion
  | suppressedCompletion
  | triggeredByIdle
  | noAction
deriving DecidableEq

/-- Result of one orchestrator tick: the dog state (the completion flag
may have been consumed), the interaction timer, and what happened. -/
structure TickResult where
  state : DogState
  last_interaction_time : ℚ
  action : TickAction
deriving DecidableEq

/-- One iteration of `autonomous_behavior_loop` (dog_agent_gradio.py lines
353-386) at wall-clock `now`: skip entirely when busy; otherwise consume
the completion flag if set, triggering an autonomous cycle (and resetting
the interaction timer) only when `now - last_interaction_time` has reached
`autonomous_interval`; otherwise trigger on idle time alone. -/
def autonomous_tick (scale now autonomous_interval : ℚ) (s : DogState)
    (last_interaction_time : ℚ) : TickResult :=
  if is_busy scale now s then ⟨s, last_interaction_time, .skippedBusy⟩
  else
    let time_since_last := now - last_interaction_time
    let c := check_and_clear_completion_flag s
    if c.1 then
      if autonomous_interval ≤ time_since_last then ⟨c.2, now, .triggeredByCompletion⟩
      else ⟨c.2, last_interaction_time, .suppressedCompletion⟩
    else
      if autonomous_interval ≤ time_since_last then ⟨c.2, now, .triggeredByIdle⟩
      else ⟨c.2, last_interaction_time, .noAction⟩

/-- The initial dataclass defaults (dog_state.py lines 16-20), anchored at
time `t0`. -/
def defaultDogState (t0 : ℚ) : DogState :=
  { hunger := 20, thirst := 20, fatigue := 20, boredom := 30, happiness := 70,
    last_update_time := t0, current := none, eating_initial_hunger := none,
    drinking_initial_thirst := none, just_completed := false }

/-- Concrete state with an expired-but-still-recorded sleeping behavior:
started at time 0 with duration 5 virtual minutes, observed at `now = 600`
with `scale = 60` (600 virtual minutes elapsed). -/
def expiredSleepState : DogState :=
  { defaultDogState 0 with current := some ⟨"sleeping", 0, 5, "睡觉"⟩ }

/-- Concrete state halfway through an eating behavior (duration 10 virtual
minutes, snapshot 80) used to refute the unconditional decay-increment
reading of the spec. -/
def midEatingState : DogState :=
  { defaultDogState 0 with
    current := some ⟨"eating", 0, 10, "吃饭"⟩
    eating_initial_hunger := some 80 }

/-- Concrete state in the middle of a sleeping behavior with high hunger,
used to witness that the unmet-needs happiness penalty is not suspended
during sleep. -/
def hungrySleepState : DogState :=
  { defaultDogState 0 with
    hunger := 80, fatigue := 60, boredom := 40, happiness := 50,
    current := some ⟨"sleeping", 0, 10, "睡觉"⟩ }

/-- Concrete state with a sleeping behavior still in progress
(duration 100 virtual minutes, observed 1 minute in). -/
def busySleepState : DogState :=
  { defaultDogState 0 with current := some ⟨"sleeping", 0, 100, "睡觉"⟩ }

/-- Concrete state of an eating behavior whose snapshot attribute is
absent (as after a reload from persistence mid-behavior). -/
def reloadedEatingState : DogState :=
  { defaultDogState 0 with current := some ⟨"eating", 0, 10, "吃饭"⟩ }

/-- Concrete instant task (the wag-tail behavior). -/
def wagTask : BehaviorTask :=
  ⟨"instant", "摇尾巴", 1/12, some "wag_tail", "尾巴兴奋地摇摆！好开心！"⟩

/-- Concrete long-term task whose start succeeded. -/
def sleepTask : BehaviorTask :=
  ⟨"long_term", "睡觉", 120, some "sleep", "开始睡觉..."⟩

theorem clamp01_nonneg (x : ℚ) : 0 ≤ clamp01 x := le_max_left 0 _

theorem clamp01_le_100 (x : ℚ) : clamp01 x ≤ 100 :=
  max_le (by norm_num) (min_le_left 100 x)

theorem inRange_clamp_values (s : DogState) : inRange (DogState.clamp_values s) :=
  ⟨⟨clamp01_nonneg _, clamp01_le_100 _⟩, ⟨clamp01_nonneg _, clamp01_le_100 _⟩,
   ⟨clamp01_nonneg _, clamp01_le_100 _⟩, ⟨clamp01_nonneg _, clamp01_le_100 _⟩,
   ⟨clamp01_nonneg _, clamp01_le_100 _⟩⟩

/-- Claim C1: after any mutation of the shared state — an instant-behavior
delta via `modify_state`, or a timed update via `update_state_by_time`
(which includes behavior progress and behavior completion) — each of the
five attributes lies in [0, 100], for arbitrary (adversarially large)
deltas and arbitrary prior sequences of such mutations. -/
theorem clamp_invariant_after_ops (op : StateOp) (ops : List StateOp)
    (p : DogState × Option Persisted) :
    inRange (applyOp op (applyOps ops p)).1 := by
  cases op with
  | modify d => exact inRange_clamp_values _
  | updateTime scale now => exact inRange_clamp_values _

/-- Claim C7: `interrupt_behavior` on an idle slot fails with the
nothing-to-interrupt message and changes nothing (neither the in-memory
state nor the persisted snapshot); on an active slot it clears the whole
behavior bundle, leaves every attribute as it stands (no completion bonus,
no zeroing), persists the cleared state, and returns confirmation text. -/
theorem interrupt_spec (reason : String) (s : DogState) (db : Option Persisted) :
    (s.current = none →
      interrupt_behavior reason s db = ((false, "狗狗没有在做需要打断的事情"), s, db))
  ∧ (∀ ab, s.current = some ab →
      interrupt_behavior reason s db =
        ((true, reason ++ "，停止了之前的行为"), { s with current := none },
          some (to_dict { s with current := none }))) := by
  constructor
  · intro h
    simp [interrupt_behavior, h]
  · intro ab h
    simp [interrupt_behavior, h, save_state]

theorem interrupt_spec_witness :
    interrupt_behavior "被主人打断" busySleepState none =
      ((true, "被主人打断，停止了之前的行为"), { busySleepState with current := none },
        some (to_dict { busySleepState with current := none })) :=
  (interrupt_spec "被主人打断" busySleepState none).2 ⟨"sleeping", 0, 100, "睡觉"⟩ rfl

/-- Claim C8: on an orchestrator tick where the slot is not busy and the
just-completed flag is set, the flag is always consumed, an autonomous
cycle is triggered iff the time since the last interaction has reached
the autonomous interval, and triggering resets the interaction timer
(otherwise the timer is untouched). -/
theorem completion_flag_tick (scale now interval last : ℚ) (s : DogState)
    (hb : is_busy scale now s = false) (hf : s.just_completed = true) :
    (autonomous_tick scale now interval s last).state.just_completed = false
  ∧ ((autonomous_tick scale now interval s last).action = TickAction.triggeredByCompletion
      ↔ interval ≤ now - last)
  ∧ (interval ≤ now - last →
      (autonomous_tick scale now interval s last).last_interaction_time = now)
  ∧ (¬ interval ≤ now - last →
      (autonomous_tick scale now interval s last).last_interaction_time = last) := by
  by_cases hle : interval ≤ now - last <;>
    simp [autonomous_tick, check_and_clear_completion_flag, hb, hf, hle]

theorem completion_flag_tick_witness :
    (autonomous_tick 60 20 15 { defaultDogState 0 with just_completed := true } 0).state.just_completed
        = false
  ∧ (autonomous_tick 60 20 15 { defaultDogState 0 with just_completed := true } 0).action
        = TickAction.triggeredByCompletion
  ∧ (autonomous_tick 60 20 15 { defaultDogState 0 with just_completed := true } 0).last_interaction_time
        = 20 := by
  have h := completion_flag_tick 60 20 15 0 { defaultDogState 0 with just_completed := true }
    (by decide) (by decide)
  exact ⟨h.1, h.2.1.mpr (by norm_num), h.2.2.1 (by norm_num)⟩

theorem complete_behavior_current (s : DogState) :
    (complete_behavior s).current = none := rfl

theorem complete_behavior_flag (s : DogState) :
    (complete_behavior s).just_completed = true := rfl

theorem decay_after_progress_current (m now : ℚ) (s1 : DogState) :
    (decay_after_progress m now s1).current = s1.current := by
  simp only [decay_after_progress]
  split_ifs <;> rfl

theorem decay_after_progress_flag (m now : ℚ) (s1 : DogState) :
    (decay_after_progress m now s1).just_completed = s1.just_completed := by
  simp only [decay_after_progress]
  split_ifs <;> rfl

theorem update_behavior_progress_done (scale now : ℚ) (s : DogState)
    (db : Option Persisted) (ab : ActiveBehavior) (hcur : s.current = some ab)
    (hdone : ab.duration ≤ virtualMinutes scale ab.start_time now) :
    update_behavior_progress scale now s db = complete_behavior_save s db := by
  simp [update_behavior_progress, hcur, hdone]

/-- Claim C2: once a long-term behavior's elapsed virtual time reaches its
duration, the next progress update completes it: the behavior bundle is
cleared (Idle), the just-completed flag is set, the persisted snapshot is
exactly the completed state, and per kind the relevant attribute is set to
exactly 0 with the fixed happiness bonus added exactly once (sleeping +10,
eating +15, drinking +10); the enclosing timed update likewise ends Idle
with the flag set. -/
theorem behavior_completion_spec (scale now : ℚ) (s : DogState)
    (db : Option Persisted) (ab : ActiveBehavior) (hcur : s.current = some ab)
    (hdone : ab.duration ≤ virtualMinutes scale ab.start_time now) :
    (update_behavior_progress scale now s db).1.current = none
  ∧ (update_behavior_progress scale now s db).1.just_completed = true
  ∧ (update_behavior_progress scale now s db).2
      = some (to_dict (update_behavior_progress scale now s db).1)
  ∧ (ab.kind = "sleeping" →
      (update_behavior_progress scale now s db).1.fatigue = 0
    ∧ (update_behavior_progress scale now s db).1.happiness = s.happiness + 10)
  ∧ (ab.kind = "eating" →
      (update_behavior_progress scale now s db).1.hunger = 0
    ∧ (update_behavior_progress scale now s db).1.happiness = s.happiness + 15)
  ∧ (ab.kind = "drinking" →
      (update_behavior_progress scale now s db).1.thirst = 0
    ∧ (update_behavior_progress scale now s db).1.happiness = s.happiness + 10)
  ∧ (update_state_by_time scale now s db).1.current = none
  ∧ (update_state_by_time scale now s db).1.just_completed = true := by
  have hstep := update_behavior_progress_done scale now s db ab hcur hdone
  have hsome : s.current.isSome = true := by rw [hcur]; rfl
  have hupd1 : (update_state_by_time scale now s db).1
      = decay_after_progress (virtualMinutes scale s.last_update_time now) now
          (complete_behavior s) := by
    simp [update_state_by_time, hsome, hstep, complete_behavior_save]
  refine ⟨?_, ?_, ?_, ?_, ?_, ?_, ?_, ?_⟩
  · rw [hstep]; exact complete_behavior_current s
  · rw [hstep]; exact complete_behavior_flag s
  · rw [hstep]; rfl
  · intro hk
    rw [hstep]
    constructor <;> simp [complete_behavior_save, complete_behavior, hcur, hk, save_state]
  · intro hk
    rw [hstep]
    constructor <;> simp [complete_behavior_save, complete_behavior, hcur, hk, save_state]
  · intro hk
    rw [hstep]
    constructor <;> simp [complete_behavior_save, complete_behavior, hcur, hk, save_state]
  · rw [hupd1, decay_after_progress_current]; exact complete_behavior_current s
  · rw [hupd1, decay_after_progress_flag]; exact complete_behavior_flag s

theorem behavior_completion_spec_witness :
    (update_behavior_progress 60 600 expiredSleepState none).1.current = none
  ∧ (update_behavior_progress 60 600 expiredSleepState none).1.just_completed = true
  ∧ (update_behavior_progress 60 600 expiredSleepState none).1.fatigue = 0
  ∧ (update_behavior_progress 60 600 expiredSleepState none).1.happiness = 80 := by
  have h := behavior_completion_spec 60 600 expiredSleepState none
    ⟨"sleeping", 0, 5, "睡觉"⟩ rfl (by norm_num [virtualMinutes])
  have hk := h.2.2.2.1 rfl
  exact ⟨h.1, h.2.1, hk.1, by rw [hk.2]; norm_num [expiredSleepState, defaultDogState]⟩

/-- Counterexample to claim C3 as stated: with a long-term behavior still
recorded in `currentBehavior` but already expired (elapsed virtual time
600 ≥ duration 5), `is_busy` is false, so `start_behavior` succeeds and
overwrites the state instead of failing with the Busy error. -/
theorem start_while_active_counterexample :
    expiredSleepState.current.isSome = true
  ∧ (start_behavior 60 600 "eating" 8 "吃饭" expiredSleepState none).1.1 = true
  ∧ (start_behavior 60 600 "eating" 8 "吃饭" expiredSleepState none).2.1.current
      = some ⟨"eating", 600, 8, "吃饭"⟩
  ∧ (start_behavior 60 600 "eating" 8 "吃饭" expiredSleepState none).2.1.current
      ≠ expiredSleepState.current := by
  refine ⟨rfl, ?_, ?_, ?_⟩ <;>
    norm_num [start_behavior, is_busy, expiredSleepState, defaultDogState, virtualMinutes]

/-- Claim C3 (amended): whenever `is_busy` reports true — an active
behavior whose elapsed virtual time is still below its duration — any
attempt to start a new long-term behavior fails with the Busy message
(carrying the existing behavior's description) and leaves both the
in-memory state and the persisted snapshot completely unchanged. -/
theorem start_rejected_when_busy (scale now : ℚ) (behavior_type : String)
    (duration_minutes : ℚ) (description : String) (s : DogState)
    (db : Option Persisted) (hb : is_busy scale now s = true) :
    start_behavior scale now behavior_type duration_minutes description s db
      = ((false, "狗狗正在" ++ (s.current.map ActiveBehavior.description).getD "None"
            ++ "，不能开始新行为"), s, db) := by
  simp [start_behavior, hb]

theorem start_rejected_when_busy_witness :
    start_behavior 60 1 "eating" 8 "吃饭" busySleepState none
      = ((false, "狗狗正在睡觉，不能开始新行为"), busySleepState, none) := by
  have h := start_rejected_when_busy 60 1 "eating" 8 "吃饭" busySleepState none
    (by norm_num [is_busy, busySleepState, defaultDogState, virtualMinutes])
  rw [h]
  rfl


theorem update_state_by_time_active (scale now : ℚ) (s : DogState)
    (db : Option Persisted) (h : s.current.isSome = true) :
    update_state_by_time scale now s db =
      (decay_after_progress (virtualMinutes scale s.last_update_time now) now
        (update_behavior_progress scale now s db).1,
       (update_behavior_progress scale now s db).2) := by
  simp [update_state_by_time, h]

theorem update_behavior_progress_sleeping (scale now : ℚ) (s : DogState)
    (db : Option Persisted) (ab : ActiveBehavior) (hcur : s.current = some ab)
    (hk : ab.kind = "sleeping")
    (hlt : virtualMinutes scale ab.start_time now < ab.duration) :
    update_behavior_progress scale now s db =
      ({ s with
          fatigue := max 0 (80 * (1 - virtualMinutes scale ab.start_time now / ab.duration))
          boredom := max 0 (50 * (1 - virtualMinutes scale ab.start_time now / ab.duration * 0.5)) },
       db) := by
  have hnot : ¬ ab.duration ≤ virtualMinutes scale ab.start_time now := not_le.mpr hlt
  simp [update_behavior_progress, hcur, hnot, hk]

theorem update_behavior_progress_eating (scale now : ℚ) (s : DogState)
    (db : Option Persisted) (ab : ActiveBehavior) (hcur : s.current = some ab)
    (hk : ab.kind = "eating")
    (hlt : virtualMinutes scale ab.start_time now < ab.duration) :
    update_behavior_progress scale now s db =
      ({ s with
          hunger := max 0 ((s.eating_initial_hunger.getD 80)
            * (1 - virtualMinutes scale ab.start_time now / ab.duration)) }, db) := by
  have hnot : ¬ ab.duration ≤ virtualMinutes scale ab.start_time now := not_le.mpr hlt
  have hne : ("eating" : String) ≠ "sleeping" := by decide
  simp [update_behavior_progress, hcur, hnot, hk, hne]

theorem update_behavior_progress_drinking (scale now : ℚ) (s : DogState)
    (db : Option Persisted) (ab : ActiveBehavior) (hcur : s.current = some ab)
    (hk : ab.kind = "drinking")
    (hlt : virtualMinutes scale ab.start_time now < ab.duration) :
    update_behavior_progress scale now s db =
      ({ s with
          thirst := max 0 ((s.drinking_initial_thirst.getD 80)
            * (1 - virtualMinutes scale ab.start_time now / ab.duration)) }, db) := by
  have hnot : ¬ ab.duration ≤ virtualMinutes scale ab.start_time now := not_le.mpr hlt
  have hne1 : ("drinking" : String) ≠ "sleeping" := by decide
  have hne2 : ("drinking" : String) ≠ "eating" := by decide
  simp [update_behavior_progress, hcur, hnot, hk, hne1, hne2]

/-- Counterexample to claim C4 as stated: with an eating behavior active
(hence "current behavior is not Sleeping"), the timed update first
overwrites hunger by the progress interpolation and only then adds the
2.0-per-minute increment, so hunger does not change by +2.0×m from its
entry value: entry hunger 20 with m = 5 would give 30, but the update
yields 50 (interpolated value 40 plus the increment 10). -/
theorem decay_increment_counterexample :
    midEatingState.current.map ActiveBehavior.kind = some "eating"
  ∧ (update_state_by_time 1 300 midEatingState none).1.hunger = 50
  ∧ clamp01 (midEatingState.hunger
      + virtualMinutes 1 midEatingState.last_update_time 300 * 2) = 30
  ∧ (update_state_by_time 1 300 midEatingState none).1.hunger
      ≠ clamp01 (midEatingState.hunger
          + virtualMinutes 1 midEatingState.last_update_time 300 * 2) := by
  have hprog := update_behavior_progress_eating 1 300 midEatingState none
    ⟨"eating", 0, 10, "吃饭"⟩ rfl rfl (by norm_num [virtualMinutes])
  have hupd := update_state_by_time_active 1 300 midEatingState none rfl
  rw [hprog] at hupd
  have hne : ("eating" : String) ≠ "sleeping" := by decide
  have hhunger : (update_state_by_time 1 300 midEatingState none).1.hunger = 50 := by
    rw [hupd]
    norm_num [decay_after_progress, midEatingState, defaultDogState, virtualMinutes,
      DogState.clamp_values, clamp01, max_def, min_def, Option.map, Option.getD, hne]
  have hclaim : clamp01 (midEatingState.hunger
      + virtualMinutes 1 midEatingState.last_update_time 300 * 2) = 30 := by
    norm_num [clamp01, midEatingState, defaultDogState, virtualMinutes, max_def, min_def]
  exact ⟨rfl, hhunger, hclaim, by rw [hhunger, hclaim]; norm_num⟩

/-- Claim C4 (amended): for elapsed virtual minutes
m = (now − lastUpdate)·scale/60, when NO long-term behavior is active,
`update_state_by_time` increments hunger by 2.0·m, thirst by 1.5·m,
fatigue by 1.0·m and boredom by 1.5·m, then decrements happiness by 0.5·m
exactly when the incremented hunger exceeds 70 or the incremented thirst
exceeds 70, then clamps all five attributes to [0,100] and advances
`last_update_time`; the persisted snapshot is untouched.  (When an
eating or drinking behavior is active the increments instead apply on top
of the progress interpolation, as the counterexample shows.) -/
theorem decay_idle_spec (scale now : ℚ) (s : DogState) (db : Option Persisted)
    (h : s.current = none) :
    update_state_by_time scale now s db =
      (DogState.clamp_values
        { s with
          hunger := s.hunger + virtualMinutes scale s.last_update_time now * 2
          thirst := s.thirst + virtualMinutes scale s.last_update_time now * 1.5
          fatigue := s.fatigue + virtualMinutes scale s.last_update_time now * 1
          boredom := s.boredom + virtualMinutes scale s.last_update_time now * 1.5
          happiness :=
            if 70 < s.hunger + virtualMinutes scale s.last_update_time now * 2
                ∨ 70 < s.thirst + virtualMinutes scale s.last_update_time now * 1.5 then
              s.happiness - virtualMinutes scale s.last_update_time now * 0.5
            else s.happiness
          last_update_time := now }, db) := by
  have hns : s.current.isSome = false := by rw [h]; rfl
  by_cases hp : 70 < s.hunger + virtualMinutes scale s.last_update_time now * 2
      ∨ 70 < s.thirst + virtualMinutes scale s.last_update_time now * 1.5 <;>
    simp [update_state_by_time, decay_after_progress, hns, h, hp]

theorem decay_idle_spec_witness :
    (update_state_by_time 60 30 (defaultDogState 0) none).1.hunger = 80
  ∧ (update_state_by_time 60 30 (defaultDogState 0) none).1.happiness = 55 := by
  have h := decay_idle_spec 60 30 (defaultDogState 0) none rfl
  rw [h]
  norm_num [DogState.clamp_values, clamp01, defaultDogState, virtualMinutes,
    max_def, min_def]

/-- Claim C5: while a behavior is Active with elapsed virtual time in
[0, duration), the progress update OVERWRITES the affected attributes with
the interpolation formulas — Sleeping: fatigue = max(0, 80·(1−p)) and
boredom = max(0, 50·(1−0.5·p)); Eating: hunger = max(0, initialHunger·(1−p));
Drinking: thirst = max(0, initialThirst·(1−p)), where p = elapsed/duration
lies in [0, 1) and the initial values are the snapshots taken at behavior
start; all other fields are left unchanged and nothing is persisted. -/
theorem tick_interpolation_spec (scale now : ℚ) (s : DogState)
    (db : Option Persisted) (ab : ActiveBehavior) (hcur : s.current = some ab)
    (h0 : 0 ≤ virtualMinutes scale ab.start_time now)
    (hlt : virtualMinutes scale ab.start_time now < ab.duration) :
    (0 ≤ virtualMinutes scale ab.start_time now / ab.duration
      ∧ virtualMinutes scale ab.start_time now / ab.duration < 1)
  ∧ (ab.kind = "sleeping" →
      update_behavior_progress scale now s db =
        ({ s with
            fatigue := max 0 (80 * (1 - virtualMinutes scale ab.start_time now / ab.duration))
            boredom := max 0 (50 * (1 - virtualMinutes scale ab.start_time now / ab.duration * 0.5)) },
         db))
  ∧ (∀ ih, ab.kind = "eating" → s.eating_initial_hunger = some ih →
      update_behavior_progress scale now s db =
        ({ s with
            hunger := max 0 (ih * (1 - virtualMinutes scale ab.start_time now / ab.duration)) },
         db))
  ∧ (∀ it, ab.kind = "drinking" → s.drinking_initial_thirst = some it →
      update_behavior_progress scale now s db =
        ({ s with
            thirst := max 0 (it * (1 - virtualMinutes scale ab.start_time now / ab.duration)) },
         db)) := by
  have hdur : 0 < ab.duration := lt_of_le_of_lt h0 hlt
  refine ⟨⟨div_nonneg h0 hdur.le, (div_lt_one hdur).mpr hlt⟩, ?_, ?_, ?_⟩
  · intro hk
    exact update_behavior_progress_sleeping scale now s db ab hcur hk hlt
  · intro ih hk hsnap
    rw [update_behavior_progress_eating scale now s db ab hcur hk hlt, hsnap]
    rfl
  · intro it hk hsnap
    rw [update_behavior_progress_drinking scale now s db ab hcur hk hlt, hsnap]
    rfl

theorem tick_interpolation_spec_witness :
    update_behavior_progress 60 1 busySleepState none
      = ({ busySleepState with fatigue := 396/5, boredom := 199/4 }, none) := by
  have h := (tick_interpolation_spec 60 1 busySleepState none
    ⟨"sleeping", 0, 100, "睡觉"⟩ rfl (by norm_num [virtualMinutes])
    (by norm_num [virtualMinutes])).2.1 rfl
  rw [h]
  norm_num [virtualMinutes, max_def]

/-- Claim C9: if an eating (resp. drinking) behavior is Active but the
initial-hunger (resp. initial-thirst) snapshot attribute is absent — as
after reloading the persisted dataclass snapshot mid-behavior — the
progress update interpolates from the `getattr` default of 80. -/
theorem reload_default_snapshot_spec (scale now : ℚ) (s : DogState)
    (db : Option Persisted) (ab : ActiveBehavior) (hcur : s.current = some ab)
    (hlt : virtualMinutes scale ab.start_time now < ab.duration) :
    (ab.kind = "eating" → s.eating_initial_hunger = none →
      (update_behavior_progress scale now s db).1.hunger
        = max 0 (80 * (1 - virtualMinutes scale ab.start_time now / ab.duration)))
  ∧ (ab.kind = "drinking" → s.drinking_initial_thirst = none →
      (update_behavior_progress scale now s db).1.thirst
        = max 0 (80 * (1 - virtualMinutes scale ab.start_time now / ab.duration))) := by
  constructor
  · intro hk hsnap
    rw [update_behavior_progress_eating scale now s db ab hcur hk hlt, hsnap]
    rfl
  · intro hk hsnap
    rw [update_behavior_progress_drinking scale now s db ab hcur hk hlt, hsnap]
    rfl

theorem reload_default_snapshot_spec_witness :
    (update_behavior_progress 60 5 reloadedEatingState none).1.hunger = 40 := by
  have h := (reload_default_snapshot_spec 60 5 reloadedEatingState none
    ⟨"eating", 0, 10, "吃饭"⟩ rfl (by norm_num [virtualMinutes])).1 rfl rfl
  rw [h]
  norm_num [virtualMinutes, max_def]

/-- Claim C10: while a sleeping behavior is Active (and not yet due to
complete), the timed update applies NO time-based increment to hunger,
thirst, fatigue or boredom — fatigue and boredom are only overwritten by
the sleep interpolation, hunger and thirst are left as they stand — but
the 0.5-per-minute happiness penalty is still applied whenever hunger > 70
or thirst > 70: the penalty is not suspended during sleep. -/
theorem sleeping_no_increment_spec (scale now : ℚ) (s : DogState)
    (db : Option Persisted) (ab : ActiveBehavior) (hcur : s.current = some ab)
    (hk : ab.kind = "sleeping")
    (hlt : virtualMinutes scale ab.start_time now < ab.duration) :
    (update_state_by_time scale now s db).1 =
      DogState.clamp_values
        { s with
          fatigue := max 0 (80 * (1 - virtualMinutes scale ab.start_time now / ab.duration))
          boredom := max 0 (50 * (1 - virtualMinutes scale ab.start_time now / ab.duration * 0.5))
          happiness :=
            if 70 < s.hunger ∨ 70 < s.thirst then
              s.happiness - virtualMinutes scale s.last_update_time now * 0.5
            else s.happiness
          last_update_time := now } := by
  have hsome : s.current.isSome = true := by rw [hcur]; rfl
  rw [update_state_by_time_active scale now s db hsome,
      update_behavior_progress_sleeping scale now s db ab hcur hk hlt]
  by_cases hp : 70 < s.hunger ∨ 70 < s.thirst <;>
    simp [decay_after_progress, hcur, hk, hp]

theorem sleeping_no_increment_spec_witness :
    (update_state_by_time 60 2 hungrySleepState none).1.hunger = 80
  ∧ (update_state_by_time 60 2 hungrySleepState none).1.fatigue = 64
  ∧ (update_state_by_time 60 2 hungrySleepState none).1.happiness = 49 := by
  have h := sleeping_no_increment_spec 60 2 hungrySleepState none
    ⟨"sleeping", 0, 10, "睡觉"⟩ rfl rfl (by norm_num [virtualMinutes])
  rw [h]
  norm_num [DogState.clamp_values, clamp01, hungrySleepState, defaultDogState,
    virtualMinutes, max_def, min_def]

/-- Claim C6: the queue executor processes tasks strictly in enqueue (FIFO)
order, at most one per step (so at most one task is ever executing, the
machine holding a single control phase): (1) each step conserves the
concatenation of the executed log and the pending queue, (2) a step
executes at most the head of the queue, (3) while waiting on a long-term
task a busy poll changes nothing — no later task begins, (4) a non-busy
poll merely releases the wait without executing anything, (5) an instant
task executes and leaves the executor immediately ready for the next task,
(6) a long-term task whose action signalled a successful start (result not
prefixed by the Busy message) puts the executor into the completion wait,
and (7) enqueueing appends at the tail and executes nothing. -/
theorem queue_executor_spec :
    (∀ (busy : Bool) (es : ExecState),
        (execStep busy es).executed ++ (execStep busy es).queue.map BehaviorTask.description
          = es.executed ++ es.queue.map BehaviorTask.description)
  ∧ (∀ (busy : Bool) (es : ExecState),
        (execStep busy es).executed = es.executed
      ∨ ∃ t rest, es.phase = ExecPhase.idle ∧ es.queue = t :: rest
          ∧ (execStep busy es).executed = es.executed ++ [t.description])
  ∧ (∀ (es : ExecState) (t : BehaviorTask),
        es.phase = ExecPhase.waiting t → execStep true es = es)
  ∧ (∀ (es : ExecState) (t : BehaviorTask),
        es.phase = ExecPhase.waiting t →
          (execStep false es).executed = es.executed
        ∧ (execStep false es).phase = ExecPhase.idle
        ∧ (execStep false es).queue = es.queue)
  ∧ (∀ (busy : Bool) (es : ExecState) (t : BehaviorTask) (rest : List BehaviorTask),
        es.phase = ExecPhase.idle → es.queue = t :: rest →
        t.behavior_type = "instant" →
        execStep busy es = ⟨rest, es.executed ++ [t.description], ExecPhase.idle⟩)
  ∧ (∀ (busy : Bool) (es : ExecState) (t : BehaviorTask) (rest : List BehaviorTask),
        es.phase = ExecPhase.idle → es.queue = t :: rest →
        t.behavior_type = "long_term" → startsWithBusyMsg t.result = false →
        execStep busy es = ⟨rest, es.executed ++ [t.description], ExecPhase.waiting t⟩)
  ∧ (∀ (t : BehaviorTask) (es : ExecState),
        enqueue t es = ⟨es.queue ++ [t], es.executed, es.phase⟩) := by
  refine ⟨?_, ?_, ?_, ?_, ?_, ?_, ?_⟩
  · intro busy es
    obtain ⟨q, ex, ph⟩ := es
    cases ph with
    | waiting t => cases busy <;> simp [execStep]
    | idle =>
      cases q with
      | nil => simp [execStep]
      | cons t rest => by_cases hl : t.behavior_type = "long_term"
          ∧ startsWithBusyMsg t.result = false <;> simp [execStep, hl]
  · intro busy es
    obtain ⟨q, ex, ph⟩ := es
    cases ph with
    | waiting t => cases busy <;> simp [execStep]
    | idle =>
      cases q with
      | nil => simp [execStep]
      | cons t rest =>
        right
        refine ⟨t, rest, rfl, rfl, ?_⟩
        by_cases hl : t.behavior_type = "long_term"
          ∧ startsWithBusyMsg t.result = false <;> simp [execStep, hl]
  · intro es t h
    obtain ⟨q, ex, ph⟩ := es
    cases ph with
    | waiting u => simp [execStep]
    | idle => exact absurd h (by simp)
  · intro es t h
    obtain ⟨q, ex, ph⟩ := es
    cases ph with
    | waiting u => simp [execStep]
    | idle => exact absurd h (by simp)
  · intro busy es t rest hph hq ht
    obtain ⟨q, ex, ph⟩ := es
    subst hph
    simp only at hq
    subst hq
    have hl : ¬ (t.behavior_type = "long_term"
        ∧ startsWithBusyMsg t.result = false) := by
      intro hc
      rw [ht] at hc
      exact absurd hc.1 (by decide)
    simp [execStep, hl]
  · intro busy es t rest hph hq ht hr
    obtain ⟨q, ex, ph⟩ := es
    subst hph
    simp only at hq
    subst hq
    simp [execStep, ht, hr]
  · intro t es
    rfl

theorem queue_executor_spec_witness :
    execStep true ⟨[wagTask], [], ExecPhase.idle⟩
      = ⟨[], ["摇尾巴"], ExecPhase.idle⟩
  ∧ execStep true ⟨[sleepTask], [], ExecPhase.idle⟩
      = ⟨[], ["睡觉"], ExecPhase.waiting sleepTask⟩ :=
  ⟨queue_executor_spec.2.2.2.2.1 true ⟨[wagTask], [], ExecPhase.idle⟩ wagTask []
      rfl rfl rfl,
   queue_executor_spec.2.2.2.2.2.1 true ⟨[sleepTask], [], ExecPhase.idle⟩ sleepTask []
      rfl rfl rfl (by decide)⟩
